import Mathlib

/-!
Verification development for the loan-eligibility scoring engine: the
`LoanEligibilityModel` class (staged in `src/src/service/bankOffersService.ts`;
the class itself belongs to the repository's `ml/modelTraining` module).

The TypeScript number arithmetic is embedded as exact rational arithmetic
(`ℚ`).  The two transcendental library calls, `Math.exp` and `Math.sqrt`,
are taken as explicit function parameters (`exp`, `sqrt`); theorems that
need a property of the real functions (such as `0 ≤ exp x` or `exp 0 = 1`)
take that property as a hypothesis.  JavaScript's `Math.round` is
`⌊x + 1/2⌋`, and `a || b` on numbers yields `b` exactly when `a` is zero
(`undefined` map lookups are `Option.none`).  `Math.random`-driven data
(the synthetic training set, the initial weights) is passed in as a
parameter, since the engine treats it as ambient input.
-/

namespace LoanEligibility

/-- JavaScript `Math.round`: round half toward positive infinity. -/
def jsRound (q : ℚ) : ℤ := ⌊q + 0.5⌋

/-- JavaScript `Math.floor`. -/
def jsFloor (q : ℚ) : ℤ := ⌊q⌋

/-- JavaScript `Math.ceil`. -/
def jsCeil (q : ℚ) : ℤ := ⌈q⌉

/-- JavaScript `v || d` on numbers: `d` when `v` is falsy (zero), else `v`. -/
def jsOrVal (v d : ℚ) : ℚ := if v = 0 then d else v

/-- JavaScript `o || d` where `o` is a map lookup (`undefined` = `none`). -/
def jsOr (o : Option ℚ) (d : ℚ) : ℚ :=
  match o with
  | none => d
  | some v => jsOrVal v d

/-- Rounding to two decimals: `Math.round(val * 100) / 100`. -/
def round2 (q : ℚ) : ℚ := (jsRound (q * 100) : ℚ) / 100

/-- The raw applicant input, `Omit<TrainingData, 'approved'>` in the source. -/
structure ApplicantProfile where
  income : ℚ
  credit_history : ℚ
  loan_amount : ℚ
  loan_term : ℚ
  employment_type : String
  dependents : ℚ
  marital_status : String
deriving DecidableEq, Repr

/-- A labeled training example (`TrainingData` in the source). -/
structure TrainingData extends ApplicantProfile where
  approved : ℚ
deriving DecidableEq, Repr

/-- The fixed 12 engineered feature names, in the insertion order of the
JavaScript `Record` built by `engineerFeatures` (`Object.keys` order). -/
inductive FeatureName where
  | income
  | credit_history
  | loan_amount
  | loan_term
  | dependents
  | employment_encoded
  | marital_encoded
  | loan_to_income_ratio
  | monthly_burden
  | income_per_dependent
  | credit_x_income
  | risk_score
deriving DecidableEq, Repr

/-- `Object.keys(features)`: the fixed feature order. -/
def featureNames : List FeatureName :=
  [.income, .credit_history, .loan_amount, .loan_term, .dependents,
   .employment_encoded, .marital_encoded, .loan_to_income_ratio,
   .monthly_burden, .income_per_dependent, .credit_x_income, .risk_score]

/-- The `employment_type` encoder table set up by the model constructor. -/
def employmentTypeScores : List (String × ℚ) :=
  [("salaried", 0.8), ("self_employed", 0.5), ("business", 0.6)]

/-- The `marital_status` encoder table set up by the model constructor. -/
def maritalStatusScores : List (String × ℚ) :=
  [("married", 0.7), ("single", 0.5), ("divorced", 0.4), ("widowed", 0.45)]

/-- `this.encoders.get(field)?.get(key) || 0.5`: table lookup with the 0.5
fallback for a missing key. -/
def encodeLookup (table : List (String × ℚ)) (key : String) : ℚ :=
  jsOr ((table.find? (fun p => p.1 == key)).map Prod.snd) 0.5

/-- `engineerFeatures`: the feature vector derived from a profile, one value
per fixed feature name. -/
def engineerFeatures (d : ApplicantProfile) : FeatureName → ℚ
  | .income => d.income
  | .credit_history => d.credit_history
  | .loan_amount => d.loan_amount
  | .loan_term => d.loan_term
  | .dependents => d.dependents
  | .employment_encoded => encodeLookup employmentTypeScores d.employment_type
  | .marital_encoded => encodeLookup maritalStatusScores d.marital_status
  | .loan_to_income_ratio => d.loan_amount / (d.income + 1)
  | .monthly_burden => (d.loan_amount * 0.01) / d.loan_term
  | .income_per_dependent => d.income / (d.dependents + 1)
  | .credit_x_income => d.credit_history * d.income
  | .risk_score => (d.loan_amount / (d.income + 1)) * (1 - d.credit_history) * (d.dependents + 1)

/-- The model's mutable maps: `weights`, `scaler.mean`, `scaler.std`.  A
lookup misses (`undefined`) exactly where the map holds `none`. -/
structure Model where
  weight : FeatureName → Option ℚ
  mean : FeatureName → Option ℚ
  std : FeatureName → Option ℚ

/-- The state installed by the constructor, before any call to `train`:
all three maps are empty. -/
def untrainedModel : Model :=
  { weight := fun _ => none, mean := fun _ => none, std := fun _ => none }

/-- One normalized feature: `(features[name] - (mean.get(name) || 0)) /
(std.get(name) || 1)` as computed in `predict` and in `train`'s
validation pass. -/
def normalizedOf (m : Model) (d : ApplicantProfile) (name : FeatureName) : ℚ :=
  (engineerFeatures d name - jsOr (m.mean name) 0) / jsOr (m.std name) 1

/-- The logit: `Σ normalized[name] * (weights.get(name) || 0)` over the
fixed feature order. -/
def logitOf (m : Model) (d : ApplicantProfile) : ℚ :=
  (featureNames.map (fun name => normalizedOf m d name * jsOr (m.weight name) 0)).sum

/-- The raw per-feature contributions: `|normalized[name] * (weights.get(name)
|| 0)|` keyed in the fixed feature order. -/
def contributionsOf (m : Model) (d : ApplicantProfile) : List (FeatureName × ℚ) :=
  featureNames.map (fun name => (name, |normalizedOf m d name * jsOr (m.weight name) 0|))

/-- `totalContribution`: the sum of all raw contributions. -/
def totalContributionOf (m : Model) (d : ApplicantProfile) : ℚ :=
  ((contributionsOf m d).map Prod.snd).sum

/-- Each contribution rescaled to a percentage share of the total. -/
def percentContributionsOf (m : Model) (d : ApplicantProfile) : List (FeatureName × ℚ) :=
  (contributionsOf m d).map (fun p => (p.1, p.2 / totalContributionOf m d * 100))

/-- The descending-by-value ordering used by `.sort((a, b) => b[1] - a[1])`. -/
def attrGe (a b : FeatureName × ℚ) : Prop := b.2 ≤ a.2

instance : DecidableRel attrGe := fun a b => inferInstanceAs (Decidable (b.2 ≤ a.2))

instance : IsTotal (FeatureName × ℚ) attrGe := ⟨fun a b => le_total b.2 a.2⟩

instance : IsTrans (FeatureName × ℚ) attrGe := ⟨fun _ _ _ h1 h2 => le_trans h2 h1⟩

/-- `sortedAttributions`: percentage shares sorted descending by value
(stable), truncated to the top 5, each value rounded to 2 decimals. -/
def attributionsOf (m : Model) (d : ApplicantProfile) : List (FeatureName × ℚ) :=
  ((List.insertionSort attrGe (percentContributionsOf m d)).take 5).map
    (fun p => (p.1, round2 p.2))

/-- The binary decision label. -/
inductive EligibilityStatus where
  | Approved
  | Rejected
deriving DecidableEq, Repr

/-- The result record returned by `predict`. -/
structure PredictionResult where
  eligibility_status : EligibilityStatus
  credit_score : ℤ
  prediction_confidence : ℤ
  probability_approved : ℚ
  feature_attributions : List (FeatureName × ℚ)
  explanation : String
deriving DecidableEq, Repr

/-- `generateExplanation`: the rule-based rationale.  The `topFeatures`
argument is accepted and ignored, exactly as in the source body. -/
def generateExplanation (status : EligibilityStatus) (_topFeatures : List FeatureName)
    (features : FeatureName → ℚ) (d : ApplicantProfile) : String :=
  let reasons : List String :=
    match status with
    | .Approved =>
      (if 0.7 ≤ d.credit_history then ["strong credit history"] else []) ++
      (if features FeatureName.loan_to_income_ratio < 3 then ["healthy loan-to-income ratio"] else []) ++
      (if d.employment_type = "salaried" then ["stable employment"] else []) ++
      (if 500000 < d.income then ["good income level"] else [])
    | .Rejected =>
      (if d.credit_history < 0.5 then ["weak credit history"] else []) ++
      (if 5 < features FeatureName.loan_to_income_ratio then ["high loan-to-income ratio"] else []) ++
      (if 1000000 < features FeatureName.risk_score then ["elevated risk score"] else []) ++
      (if 3 < d.dependents then ["higher number of dependents"] else [])
  let statusWord := match status with
    | .Approved => "approved"
    | .Rejected => "rejected"
  "Application " ++ statusWord ++ " based on " ++ String.intercalate ", " reasons ++ "."

/-- `predict`: engineer, normalize, score, classify, attribute, explain. -/
def predict (exp : ℚ → ℚ) (m : Model) (d : ApplicantProfile) : PredictionResult :=
  let probability_approved : ℚ := 1 / (1 + exp (-(logitOf m d)))
  let eligibility_status : EligibilityStatus :=
    if 0.5 ≤ probability_approved then .Approved else .Rejected
  let credit_score : ℤ := jsRound (300 + probability_approved * (850 - 300))
  let prediction_confidence : ℤ :=
    jsRound ((if eligibility_status = .Approved then probability_approved
              else 1 - probability_approved) * 100)
  let sortedAttributions := attributionsOf m d
  let topFeatures := (sortedAttributions.map Prod.fst).take 3
  { eligibility_status := eligibility_status
    credit_score := credit_score
    prediction_confidence := prediction_confidence
    probability_approved := probability_approved
    feature_attributions := sortedAttributions
    explanation := generateExplanation eligibility_status topFeatures (engineerFeatures d) d }

/-- The metrics record returned by `calculateMetrics` / `train`.  The
source field `recall` is spelled `recall_score` here because `recall` is a
reserved word in this Lean environment. -/
structure ModelMetrics where
  accuracy : ℚ
  precision : ℚ
  recall_score : ℚ
  f1_score : ℚ
  training_samples : ℤ
  validation_samples : ℤ
deriving DecidableEq, Repr

/-- The confusion-matrix loop of `calculateMetrics`: walk the predictions,
threshold each at 0.5 and compare with the matching actual label; an index
past the end of `actuals` (an `undefined` read in the source) matches no
branch and stops all further increments.  Returns `(tp, fp, tn, fn)`. -/
def confusionCounts : List ℚ → List ℚ → ℕ × ℕ × ℕ × ℕ
  | [], _ => (0, 0, 0, 0)
  | _ :: _, [] => (0, 0, 0, 0)
  | p :: ps, a :: as =>
    let rest := confusionCounts ps as
    let pred : ℕ := if 0.5 ≤ p then 1 else 0
    if pred = 1 ∧ a = 1 then (rest.1 + 1, rest.2.1, rest.2.2.1, rest.2.2.2)
    else if pred = 1 ∧ a = 0 then (rest.1, rest.2.1 + 1, rest.2.2.1, rest.2.2.2)
    else if pred = 0 ∧ a = 0 then (rest.1, rest.2.1, rest.2.2.1 + 1, rest.2.2.2)
    else if pred = 0 ∧ a = 1 then (rest.1, rest.2.1, rest.2.2.1, rest.2.2.2 + 1)
    else rest

/-- True positives: predictions at least 0.5 whose actual label is 1. -/
def tpCount (preds acts : List ℚ) : ℕ :=
  (preds.zip acts).countP (fun pa => decide (0.5 ≤ pa.1 ∧ pa.2 = 1))

/-- False positives: predictions at least 0.5 whose actual label is 0. -/
def fpCount (preds acts : List ℚ) : ℕ :=
  (preds.zip acts).countP (fun pa => decide (0.5 ≤ pa.1 ∧ pa.2 = 0))

/-- True negatives: predictions below 0.5 whose actual label is 0. -/
def tnCount (preds acts : List ℚ) : ℕ :=
  (preds.zip acts).countP (fun pa => decide (¬ 0.5 ≤ pa.1 ∧ pa.2 = 0))

/-- False negatives: predictions below 0.5 whose actual label is 1. -/
def fnCount (preds acts : List ℚ) : ℕ :=
  (preds.zip acts).countP (fun pa => decide (¬ 0.5 ≤ pa.1 ∧ pa.2 = 1))

/-- `calculateMetrics(predictions, actuals)`. -/
def calculateMetrics (predictions actuals : List ℚ) : ModelMetrics :=
  let c := confusionCounts predictions actuals
  let tp := c.1
  let fp := c.2.1
  let tn := c.2.2.1
  let fn := c.2.2.2
  let accuracy : ℚ := (((tp : ℚ) + tn) / predictions.length) * 100
  let precision : ℚ := if 0 < tp + fp then ((tp : ℚ) / ((tp : ℚ) + fp)) * 100 else 0
  let recall_score : ℚ := if 0 < tp + fn then ((tp : ℚ) / ((tp : ℚ) + fn)) * 100 else 0
  let f1_score : ℚ :=
    if 0 < precision + recall_score then (2 * precision * recall_score) / (precision + recall_score)
    else 0
  { accuracy := accuracy
    precision := precision
    recall_score := recall_score
    f1_score := f1_score
    training_samples := jsFloor ((predictions.length : ℚ) * 0.8)
    validation_samples := jsCeil ((predictions.length : ℚ) * 0.2) }

/-- The per-feature population mean fitted in `trainEnsemble`. -/
def fitMean (features : List (FeatureName → ℚ)) (name : FeatureName) : ℚ :=
  ((features.map (fun f => f name)).sum) / features.length

/-- The per-feature population variance fitted in `trainEnsemble`. -/
def fitVariance (features : List (FeatureName → ℚ)) (name : FeatureName) : ℚ :=
  ((features.map (fun f => (f name - fitMean features name) ^ 2)).sum) / features.length

/-- The stored scaling divisor: `Math.sqrt(variance) || 1`. -/
def fitStd (sqrt : ℚ → ℚ) (features : List (FeatureName → ℚ)) (name : FeatureName) : ℚ :=
  jsOrVal (sqrt (fitVariance features name)) 1

/-- One full-batch gradient-descent epoch over the normalized training
features and labels (learning rate 0.01). -/
def gdEpoch (exp : ℚ → ℚ) (normalizedFeatures : List (FeatureName → ℚ)) (labels : List ℚ)
    (w : FeatureName → ℚ) : FeatureName → ℚ :=
  let gradients : FeatureName → ℚ :=
    (normalizedFeatures.zip labels).foldl
      (fun g fa =>
        let prediction := (featureNames.map (fun name => fa.1 name * jsOrVal (w name) 0)).sum
        let prob := 1 / (1 + exp (-prediction))
        let error := prob - fa.2
        fun name => jsOrVal (g name) 0 + error * fa.1 name)
      (fun _ => 0)
  fun name =>
    jsOrVal (w name) 0 - 0.01 * (jsOrVal (gradients name) 0 / normalizedFeatures.length)

/-- `trainEnsemble(trainingData)`: fit the scaler on the training features,
normalize, then run 100 gradient-descent epochs from the (random, here
parametric) initial weights `init`. -/
def trainEnsemble (exp sqrt : ℚ → ℚ) (init : FeatureName → ℚ)
    (trainingData : List TrainingData) : Model :=
  let features := trainingData.map (fun d => engineerFeatures d.toApplicantProfile)
  let normalizedFeatures := features.map
    (fun f name => (f name - jsOrVal (fitMean features name) 0) / jsOrVal (fitStd sqrt features name) 1)
  let labels := trainingData.map (fun d => d.approved)
  let finalWeights := (gdEpoch exp normalizedFeatures labels)^[100] init
  { weight := fun name => some (finalWeights name)
    mean := fun name => some (fitMean features name)
    std := fun name => some (fitStd sqrt features name) }

/-- `train()`: split the (here parametric) generated data 80/20 in order,
fit on the training split, score the validation split, and return the
metrics.  `syntheticData` stands for `generateSyntheticData(5000)`. -/
def train (exp sqrt : ℚ → ℚ) (init : FeatureName → ℚ)
    (syntheticData : List TrainingData) : ModelMetrics :=
  let totalSamples := syntheticData.length
  let splitIndex := (jsFloor ((totalSamples : ℚ) * 0.8)).toNat
  let trainingData := syntheticData.take splitIndex
  let validationData := syntheticData.drop splitIndex
  let model := trainEnsemble exp sqrt init trainingData
  let validationPredictions := validationData.map
    (fun d => 1 / (1 + exp (-(logitOf model d.toApplicantProfile))))
  let actuals := validationData.map (fun d => d.approved)
  calculateMetrics validationPredictions actuals

/-! ## Basic lemmas about the embedding -/

theorem jsOr_none (d : ℚ) : jsOr none d = d := rfl

theorem jsOr_some (v d : ℚ) : jsOr (some v) d = jsOrVal v d := rfl

theorem jsOr_ne_zero_of_default_one (o : Option ℚ) : jsOr o 1 ≠ 0 := by
  cases o with
  | none => simp [jsOr]
  | some v =>
    simp only [jsOr, jsOrVal]
    by_cases h : v = 0 <;> simp [h]

theorem jsRound_le_jsRound {a b : ℚ} (h : a ≤ b) : jsRound a ≤ jsRound b :=
  Int.floor_le_floor (add_le_add_right h _)

theorem jsRound_intCast (n : ℤ) : jsRound (n : ℚ) = n := by
  rw [jsRound, add_comm, Int.floor_add_int, Int.floor_eq_zero_iff.mpr]
  · simp
  · constructor <;> norm_num

theorem jsRound_bounds {lo hi : ℤ} {x : ℚ} (h1 : (lo : ℚ) ≤ x) (h2 : x ≤ (hi : ℚ)) :
    lo ≤ jsRound x ∧ jsRound x ≤ hi := by
  constructor
  · have h := jsRound_le_jsRound h1
    rwa [jsRound_intCast] at h
  · have h := jsRound_le_jsRound h2
    rwa [jsRound_intCast] at h

theorem round2_mono {a b : ℚ} (h : a ≤ b) : round2 a ≤ round2 b := by
  unfold round2
  have := jsRound_le_jsRound (mul_le_mul_of_nonneg_right h (by norm_num : (0:ℚ) ≤ 100))
  have hcast : (jsRound (a * 100) : ℚ) ≤ (jsRound (b * 100) : ℚ) := by exact_mod_cast this
  linarith

theorem round2_bounds {x : ℚ} (h0 : 0 ≤ x) (h100 : x ≤ 100) :
    0 ≤ round2 x ∧ round2 x ≤ 100 := by
  have hb := @jsRound_bounds 0 10000 (x * 100) (by push_cast; linarith) (by push_cast; linarith)
  unfold round2
  constructor
  · have : ((0:ℤ) : ℚ) ≤ (jsRound (x * 100) : ℚ) := by exact_mod_cast hb.1
    push_cast at this
    linarith
  · have : (jsRound (x * 100) : ℚ) ≤ ((10000:ℤ) : ℚ) := by exact_mod_cast hb.2
    push_cast at this
    linarith

theorem sigmoid_pos {e : ℚ} (he : 0 ≤ e) : 0 < 1 / (1 + e) := by positivity

theorem sigmoid_le_one {e : ℚ} (he : 0 ≤ e) : 1 / (1 + e) ≤ 1 := by
  rw [div_le_one (by linarith)]
  linarith

/-! ## Projections of `predict` -/

theorem predict_probability_approved (exp : ℚ → ℚ) (m : Model) (d : ApplicantProfile) :
    (predict exp m d).probability_approved = 1 / (1 + exp (-(logitOf m d))) := by
  simp only [predict]

theorem predict_eligibility_status (exp : ℚ → ℚ) (m : Model) (d : ApplicantProfile) :
    (predict exp m d).eligibility_status =
      if 0.5 ≤ 1 / (1 + exp (-(logitOf m d))) then EligibilityStatus.Approved
      else EligibilityStatus.Rejected := by
  simp only [predict]

theorem predict_credit_score (exp : ℚ → ℚ) (m : Model) (d : ApplicantProfile) :
    (predict exp m d).credit_score =
      jsRound (300 + (1 / (1 + exp (-(logitOf m d)))) * (850 - 300)) := by
  simp only [predict]

theorem predict_feature_attributions (exp : ℚ → ℚ) (m : Model) (d : ApplicantProfile) :
    (predict exp m d).feature_attributions = attributionsOf m d := by
  simp only [predict]

theorem predict_prediction_confidence (exp : ℚ → ℚ) (m : Model) (d : ApplicantProfile) :
    (predict exp m d).prediction_confidence =
      if 0.5 ≤ 1 / (1 + exp (-(logitOf m d))) then
        jsRound ((1 / (1 + exp (-(logitOf m d)))) * 100)
      else jsRound ((1 - 1 / (1 + exp (-(logitOf m d)))) * 100) := by
  simp only [predict]
  by_cases h : (0.5 : ℚ) ≤ 1 / (1 + exp (-(logitOf m d))) <;> simp [h] <;> split_ifs <;> rfl

theorem logitOf_untrained (d : ApplicantProfile) : logitOf untrainedModel d = 0 := by
  simp [logitOf, featureNames, untrainedModel, jsOr_none]

theorem calculateMetrics_training_samples (preds acts : List ℚ) :
    (calculateMetrics preds acts).training_samples = jsFloor ((preds.length : ℚ) * 0.8) := by
  simp only [calculateMetrics]

theorem calculateMetrics_validation_samples (preds acts : List ℚ) :
    (calculateMetrics preds acts).validation_samples = jsCeil ((preds.length : ℚ) * 0.2) := by
  simp only [calculateMetrics]

/-! ## Concrete inputs used by witnesses and counterexamples -/

/-- Concrete applicant: the spec's end-to-end scenario A profile. -/
def scenarioA : ApplicantProfile :=
  { income := 1200000, credit_history := 0.9, loan_amount := 1000000, loan_term := 240,
    employment_type := "salaried", dependents := 1, marital_status := "married" }

/-- Concrete applicant: the spec's end-to-end scenario B profile. -/
def scenarioB : ApplicantProfile :=
  { income := 150000, credit_history := 0.1, loan_amount := 4000000, loan_term := 360,
    employment_type := "self_employed", dependents := 4, marital_status := "single" }

/-- Concrete applicant with categorical values outside both encoder tables. -/
def scenarioUnknownCats : ApplicantProfile :=
  { income := 400000, credit_history := 0.4, loan_amount := 900000, loan_term := 60,
    employment_type := "contractor", dependents := 2, marital_status := "separated" }

/-- A concrete labeled example, used to build concrete training sets. -/
def sampleExample : TrainingData :=
  { income := 500000, credit_history := 0.5, loan_amount := 1000000, loan_term := 120,
    employment_type := "salaried", dependents := 1, marital_status := "single", approved := 1 }

/-! ## The claims -/

/-- C1: the claim says `train()` over 5000 generated samples reports
`training_samples = 4000` and `validation_samples = 1000`, recorded from the
caller's 80/20 split.  The code instead recomputes both inside
`calculateMetrics` from the metric input length (the 1000 validation
predictions), yielding `floor(1000 × 0.8) = 800` and `ceil(1000 × 0.2) =
200` for every run over 5000 samples, whatever the data, the exp/sqrt
functions and the initial weights. -/
theorem claim_C1_train_sample_counts (exp sqrt : ℚ → ℚ) (init : FeatureName → ℚ)
    (syntheticData : List TrainingData) (h : syntheticData.length = 5000) :
    (train exp sqrt init syntheticData).training_samples = 800 ∧
    (train exp sqrt init syntheticData).validation_samples = 200 := by
  have hsplit : (jsFloor ((syntheticData.length : ℚ) * 0.8)).toNat = 4000 := by
    rw [h]
    norm_num [jsFloor]
    decide
  have hlen : ∀ (f : TrainingData → ℚ),
      ((syntheticData.drop ((jsFloor ((syntheticData.length : ℚ) * 0.8)).toNat)).map f).length
        = 1000 := by
    intro f
    rw [List.length_map, List.length_drop, hsplit, h]
  constructor
  · show (train exp sqrt init syntheticData).training_samples = 800
    simp only [train]
    rw [calculateMetrics_training_samples, hlen]
    norm_num [jsFloor]
  · show (train exp sqrt init syntheticData).validation_samples = 200
    simp only [train]
    rw [calculateMetrics_validation_samples, hlen]
    norm_num [jsCeil]

/-- Witness for C1: a concrete 5000-example data set. -/
theorem claim_C1_witness :
    (List.replicate 5000 sampleExample).length = 5000 ∧
    (train (fun _ => 1) (fun _ => 0) (fun _ => 0)
      (List.replicate 5000 sampleExample)).training_samples = 800 ∧
    (train (fun _ => 1) (fun _ => 0) (fun _ => 0)
      (List.replicate 5000 sampleExample)).validation_samples = 200 := by
  have h : (List.replicate 5000 sampleExample).length = 5000 := List.length_replicate 5000 _
  exact ⟨h, (claim_C1_train_sample_counts _ _ _ _ h).1,
    (claim_C1_train_sample_counts _ _ _ _ h).2⟩

/-- C2 counterexample: calling `predict` on the constructor-fresh, never
trained model does not fail at all — it silently returns the degenerate
output (probability 0.5, status `Approved`, confidence 50). -/
theorem claim_C2_counterexample :
    (predict (fun _ => 1) untrainedModel scenarioB).probability_approved = 1 / 2 ∧
    (predict (fun _ => 1) untrainedModel scenarioB).eligibility_status =
      EligibilityStatus.Approved ∧
    (predict (fun _ => 1) untrainedModel scenarioB).prediction_confidence = 50 := by
  have hl := logitOf_untrained scenarioB
  have hp : (1 : ℚ) / (1 + (fun _ : ℚ => (1 : ℚ)) (-(logitOf untrainedModel scenarioB))) = 1 / 2 := by
    norm_num
  have hc : (0.5 : ℚ) ≤ 1 / (1 + (fun _ : ℚ => (1 : ℚ)) (-(logitOf untrainedModel scenarioB))) := by
    rw [hp]
    norm_num
  refine ⟨?_, ?_, ?_⟩
  · rw [predict_probability_approved, hp]
  · rw [predict_eligibility_status, if_pos hc]
  · rw [predict_prediction_confidence, if_pos hc, hp]
    have h50 : ((1 : ℚ) / 2) * 100 = ((50 : ℤ) : ℚ) := by norm_num
    rw [h50, jsRound_intCast]

/-- C2 (amended): `predict` performs no trained-state check and raises no
"model not trained" error; on an untrained model every weight/mean/std
lookup falls back to its default (0, 0, 1), so it silently returns
probability 0.5, status `Approved`, confidence 50. -/
theorem claim_C2_untrained_predict_silent (exp : ℚ → ℚ) (d : ApplicantProfile)
    (h : exp 0 = 1) :
    (predict exp untrainedModel d).probability_approved = 1 / 2 ∧
    (predict exp untrainedModel d).eligibility_status = EligibilityStatus.Approved ∧
    (predict exp untrainedModel d).prediction_confidence = 50 := by
  have hl := logitOf_untrained d
  have hp : (1 : ℚ) / (1 + exp (-(logitOf untrainedModel d))) = 1 / 2 := by
    rw [hl, neg_zero, h]
    norm_num
  have hc : (0.5 : ℚ) ≤ 1 / (1 + exp (-(logitOf untrainedModel d))) := by
    rw [hp]
    norm_num
  refine ⟨?_, ?_, ?_⟩
  · rw [predict_probability_approved, hp]
  · rw [predict_eligibility_status, if_pos hc]
  · rw [predict_prediction_confidence, if_pos hc, hp]
    have h50 : ((1 : ℚ) / 2) * 100 = ((50 : ℤ) : ℚ) := by norm_num
    rw [h50, jsRound_intCast]

/-- Witness for C2's amended statement: the concrete scenario-A profile. -/
theorem claim_C2_witness :
    (fun _ : ℚ => (1 : ℚ)) 0 = 1 ∧
    (predict (fun _ => 1) untrainedModel scenarioA).probability_approved = 1 / 2 ∧
    (predict (fun _ => 1) untrainedModel scenarioA).eligibility_status =
      EligibilityStatus.Approved ∧
    (predict (fun _ => 1) untrainedModel scenarioA).prediction_confidence = 50 := by
  have h := claim_C2_untrained_predict_silent (fun _ => 1) scenarioA rfl
  exact ⟨rfl, h.1, h.2.1, h.2.2⟩

/-- C3: for every exp function, model and profile, `predict` returns
`Approved` exactly when the returned `probability_approved` is at least
0.5, the boundary 0.5 itself classifying as `Approved`. -/
theorem claim_C3_approved_iff_half (exp : ℚ → ℚ) (m : Model) (d : ApplicantProfile) :
    (predict exp m d).eligibility_status = EligibilityStatus.Approved ↔
      0.5 ≤ (predict exp m d).probability_approved := by
  rw [predict_eligibility_status, predict_probability_approved]
  by_cases h : (0.5 : ℚ) ≤ 1 / (1 + exp (-(logitOf m d))) <;> simp [h]

/-- Every raw contribution is an absolute value, hence nonnegative. -/
theorem contributionsOf_nonneg (m : Model) (d : ApplicantProfile) :
    ∀ p ∈ contributionsOf m d, 0 ≤ p.2 := by
  intro p hp
  simp only [contributionsOf, List.mem_map] at hp
  obtain ⟨name, -, rfl⟩ := hp
  exact abs_nonneg _

/-- A percentage share of a nonnegative total stays within `[0, 100]`
(with the rational convention `c / 0 = 0` covering a zero total). -/
theorem percent_bounds {c t : ℚ} (hc : 0 ≤ c) (hct : c ≤ t) :
    0 ≤ c / t * 100 ∧ c / t * 100 ≤ 100 := by
  rcases eq_or_lt_of_le (le_trans hc hct) with ht | ht
  · have hc0 : c = 0 := le_antisymm (ht ▸ hct) hc
    simp [hc0]
  · constructor
    · positivity
    · have h1 : c / t ≤ 1 := (div_le_one ht).mpr hct
      linarith

/-- Every entry of the rescaled contribution list lies in `[0, 100]`. -/
theorem percentContributionsOf_bounds (m : Model) (d : ApplicantProfile) :
    ∀ p ∈ percentContributionsOf m d, 0 ≤ p.2 ∧ p.2 ≤ 100 := by
  intro p hp
  simp only [percentContributionsOf, List.mem_map] at hp
  obtain ⟨q, hq, rfl⟩ := hp
  have hq0 : 0 ≤ q.2 := contributionsOf_nonneg m d q hq
  have hqt : q.2 ≤ totalContributionOf m d := by
    unfold totalContributionOf
    refine List.single_le_sum ?_ q.2 (List.mem_map_of_mem Prod.snd hq)
    intro x hx
    simp only [List.mem_map] at hx
    obtain ⟨r, hr, rfl⟩ := hx
    exact contributionsOf_nonneg m d r hr
  exact percent_bounds hq0 hqt

/-- C5: the attributions returned by `predict` are exactly the
contribution-share pipeline (`|normalized × weight|`, rescaled to shares of
the total): at most 5 entries, each the 2-decimal rounding of a share in
`[0, 100]`, listed in descending order by value. -/
theorem claim_C5_attributions (exp : ℚ → ℚ) (m : Model) (d : ApplicantProfile) :
    (predict exp m d).feature_attributions = attributionsOf m d ∧
    (predict exp m d).feature_attributions.length ≤ 5 ∧
    (∀ p ∈ (predict exp m d).feature_attributions,
      ∃ q ∈ percentContributionsOf m d,
        p = (q.1, round2 q.2) ∧ 0 ≤ p.2 ∧ p.2 ≤ 100) ∧
    List.Sorted attrGe (predict exp m d).feature_attributions := by
  rw [predict_feature_attributions]
  refine ⟨rfl, ?_, ?_, ?_⟩
  · unfold attributionsOf
    rw [List.length_map]
    exact List.length_take_le 5 _
  · intro p hp
    unfold attributionsOf at hp
    simp only [List.mem_map] at hp
    obtain ⟨q, hq, rfl⟩ := hp
    have hq' : q ∈ List.insertionSort attrGe (percentContributionsOf m d) :=
      List.mem_of_mem_take hq
    have hqmem : q ∈ percentContributionsOf m d :=
      (List.perm_insertionSort attrGe _).mem_iff.mp hq'
    have hb := percentContributionsOf_bounds m d q hqmem
    have hr := round2_bounds hb.1 hb.2
    exact ⟨q, hqmem, rfl, hr.1, hr.2⟩
  · unfold attributionsOf
    have hs : List.Sorted attrGe (List.insertionSort attrGe (percentContributionsOf m d)) :=
      List.sorted_insertionSort attrGe _
    have ht : List.Sorted attrGe
        ((List.insertionSort attrGe (percentContributionsOf m d)).take 5) :=
      hs.sublist (List.take_sublist 5 _)
    exact ht.map _ (fun a b hab => round2_mono hab)

/-- C9: `predict` is total in this embedding; on the never-trained model
every lookup takes its default (weight 0, mean 0, std 1), the logit is 0
and the result is probability 0.5 with status `Approved`, not an error. -/
theorem claim_C9_untrained_defaults (exp : ℚ → ℚ) (d : ApplicantProfile)
    (h : exp 0 = 1) :
    logitOf untrainedModel d = 0 ∧
    (predict exp untrainedModel d).probability_approved = 1 / 2 ∧
    (predict exp untrainedModel d).eligibility_status = EligibilityStatus.Approved := by
  have hl := logitOf_untrained d
  have hp : (1 : ℚ) / (1 + exp (-(logitOf untrainedModel d))) = 1 / 2 := by
    rw [hl, neg_zero, h]
    norm_num
  refine ⟨hl, ?_, ?_⟩
  · rw [predict_probability_approved, hp]
  · rw [predict_eligibility_status, if_pos (by rw [hp]; norm_num)]

/-- Shared helper: once the exp value at the prediction's argument is
nonnegative, the returned confidence lies in `[50, 100]`. -/
theorem prediction_confidence_in_range (exp : ℚ → ℚ) (m : Model) (d : ApplicantProfile)
    (h : 0 ≤ exp (-(logitOf m d))) :
    50 ≤ (predict exp m d).prediction_confidence ∧
    (predict exp m d).prediction_confidence ≤ 100 := by
  have hp0 := sigmoid_pos h
  have hp1 := sigmoid_le_one h
  rw [predict_prediction_confidence]
  split_ifs with hc
  · exact jsRound_bounds (by push_cast; linarith) (by push_cast; linarith)
  · push_neg at hc
    exact jsRound_bounds (by push_cast; linarith) (by push_cast; linarith)

/-- A concrete model with populated maps, used as a witness input. -/
def sampleModel : Model :=
  { weight := fun _ => some 0.1, mean := fun _ => some 1, std := fun _ => some 2 }

/-- C4: the credit score is `round(300 + probability × 550)` and lies in
`[300, 850]`; the confidence is `round(probability × 100)` when Approved and
`round((1 − probability) × 100)` when Rejected, and lies in `[0, 100]`. -/
theorem claim_C4_score_confidence (exp : ℚ → ℚ) (m : Model) (d : ApplicantProfile)
    (h : 0 ≤ exp (-(logitOf m d))) :
    (predict exp m d).credit_score =
      jsRound (300 + (predict exp m d).probability_approved * 550) ∧
    300 ≤ (predict exp m d).credit_score ∧
    (predict exp m d).credit_score ≤ 850 ∧
    (predict exp m d).prediction_confidence =
      (if (predict exp m d).eligibility_status = EligibilityStatus.Approved then
        jsRound ((predict exp m d).probability_approved * 100)
      else jsRound ((1 - (predict exp m d).probability_approved) * 100)) ∧
    0 ≤ (predict exp m d).prediction_confidence ∧
    (predict exp m d).prediction_confidence ≤ 100 := by
  have hp0 := sigmoid_pos h
  have hp1 := sigmoid_le_one h
  have hrange := prediction_confidence_in_range exp m d h
  refine ⟨?_, ?_, ?_, ?_, ?_, hrange.2⟩
  · rw [predict_credit_score, predict_probability_approved]
    norm_num
  · rw [predict_credit_score]
    refine (@jsRound_bounds 300 850 _ ?_ ?_).1 <;> push_cast <;> nlinarith
  · rw [predict_credit_score]
    refine (@jsRound_bounds 300 850 _ ?_ ?_).2 <;> push_cast <;> nlinarith
  · rw [predict_prediction_confidence, predict_eligibility_status, predict_probability_approved]
    by_cases hc : (0.5 : ℚ) ≤ 1 / (1 + exp (-(logitOf m d))) <;> simp [hc]
  · linarith [hrange.1]

/-- Witness for C4: a concrete exp function, model and profile. -/
theorem claim_C4_witness :
    0 ≤ (fun _ : ℚ => (1 : ℚ)) (-(logitOf sampleModel scenarioA)) ∧
    ((predict (fun _ => 1) sampleModel scenarioA).credit_score =
      jsRound (300 + (predict (fun _ => 1) sampleModel scenarioA).probability_approved * 550) ∧
    300 ≤ (predict (fun _ => 1) sampleModel scenarioA).credit_score ∧
    (predict (fun _ => 1) sampleModel scenarioA).credit_score ≤ 850 ∧
    (predict (fun _ => 1) sampleModel scenarioA).prediction_confidence =
      (if (predict (fun _ => 1) sampleModel scenarioA).eligibility_status =
          EligibilityStatus.Approved then
        jsRound ((predict (fun _ => 1) sampleModel scenarioA).probability_approved * 100)
      else jsRound ((1 - (predict (fun _ => 1) sampleModel scenarioA).probability_approved) * 100)) ∧
    0 ≤ (predict (fun _ => 1) sampleModel scenarioA).prediction_confidence ∧
    (predict (fun _ => 1) sampleModel scenarioA).prediction_confidence ≤ 100) :=
  ⟨by norm_num, claim_C4_score_confidence (fun _ => 1) sampleModel scenarioA (by norm_num)⟩

/-- C10: the confidence actually lies in `[50, 100]`, strictly inside the
specified `[0, 100]`, because it is derived from the larger of
`probability_approved` and `1 − probability_approved`. -/
theorem claim_C10_confidence_at_least_fifty (exp : ℚ → ℚ) (m : Model) (d : ApplicantProfile)
    (h : 0 ≤ exp (-(logitOf m d))) :
    50 ≤ (predict exp m d).prediction_confidence ∧
    (predict exp m d).prediction_confidence ≤ 100 :=
  prediction_confidence_in_range exp m d h

/-- Witness for C10: a concrete exp function, model and profile. -/
theorem claim_C10_witness :
    0 ≤ (fun _ : ℚ => (1 : ℚ)) (-(logitOf untrainedModel scenarioUnknownCats)) ∧
    50 ≤ (predict (fun _ => 1) untrainedModel scenarioUnknownCats).prediction_confidence ∧
    (predict (fun _ => 1) untrainedModel scenarioUnknownCats).prediction_confidence ≤ 100 :=
  ⟨by norm_num,
    (claim_C10_confidence_at_least_fifty (fun _ => 1) untrainedModel scenarioUnknownCats
      (by norm_num)).1,
    (claim_C10_confidence_at_least_fifty (fun _ => 1) untrainedModel scenarioUnknownCats
      (by norm_num)).2⟩

/-- The loop of `calculateMetrics` counts exactly the four threshold/label
combinations. -/
theorem confusionCounts_eq (preds acts : List ℚ) :
    confusionCounts preds acts =
      (tpCount preds acts, fpCount preds acts, tnCount preds acts, fnCount preds acts) := by
  induction preds generalizing acts with
  | nil => cases acts <;> simp [confusionCounts, tpCount, fpCount, tnCount, fnCount]
  | cons p ps ih =>
    cases acts with
    | nil => simp [confusionCounts, tpCount, fpCount, tnCount, fnCount]
    | cons a as =>
      rcases le_or_lt 0.5 p with hp | hp
      · by_cases ha1 : a = 1
        · subst ha1
          simp [confusionCounts, ih, tpCount, fpCount, tnCount, fnCount,
            List.countP_cons, hp]
        · by_cases ha0 : a = 0
          · subst ha0
            simp [confusionCounts, ih, tpCount, fpCount, tnCount, fnCount,
              List.countP_cons, hp]
          · simp [confusionCounts, ih, tpCount, fpCount, tnCount, fnCount,
              List.countP_cons, hp, ha1, ha0]
      · have hp' : ¬ (0.5 : ℚ) ≤ p := not_le.mpr hp
        by_cases ha1 : a = 1
        · subst ha1
          simp [confusionCounts, ih, tpCount, fpCount, tnCount, fnCount,
            List.countP_cons, hp, hp']
        · by_cases ha0 : a = 0
          · subst ha0
            simp [confusionCounts, ih, tpCount, fpCount, tnCount, fnCount,
              List.countP_cons, hp, hp']
          · simp [confusionCounts, ih, tpCount, fpCount, tnCount, fnCount,
              List.countP_cons, hp, hp', ha1, ha0]

/-- Two pointwise-incompatible boolean predicates count at most the whole
list between them. -/
theorem countP_disjoint_le_length {α : Type} (l : List α) (f g : α → Bool)
    (h : ∀ a, ¬(f a = true ∧ g a = true)) :
    l.countP f + l.countP g ≤ l.length := by
  induction l with
  | nil => simp
  | cons x xs ih =>
    simp only [List.countP_cons, List.length_cons]
    split_ifs with h1 h2
    · exact absurd ⟨h1, h2⟩ (h x)
    · omega
    · omega
    · omega

/-- True positives plus true negatives never exceed the prediction count. -/
theorem tp_add_tn_le (preds acts : List ℚ) (h : acts.length = preds.length) :
    tpCount preds acts + tnCount preds acts ≤ preds.length := by
  have hz : (preds.zip acts).length = preds.length := by
    rw [List.length_zip, h, min_self]
  calc tpCount preds acts + tnCount preds acts ≤ (preds.zip acts).length := by
        refine countP_disjoint_le_length _ _ _ ?_
        intro a hcontra
        rcases hcontra with ⟨hf, hg⟩
        rw [decide_eq_true_eq] at hf hg
        exact hg.1 hf.1
    _ = preds.length := hz

/-- The harmonic-mean step keeps `f1` inside `[0, 100]` whenever precision
and recall are. -/
theorem f1_bounds {P R : ℚ} (hP0 : 0 ≤ P) (hP1 : P ≤ 100) (hR0 : 0 ≤ R) (hR1 : R ≤ 100) :
    0 ≤ (if 0 < P + R then 2 * P * R / (P + R) else 0) ∧
    (if 0 < P + R then 2 * P * R / (P + R) else 0) ≤ 100 := by
  split_ifs with h
  · constructor
    · positivity
    · rw [div_le_iff₀ h]
      nlinarith [mul_nonneg (by linarith : (0:ℚ) ≤ 100 - P) hR0,
        mul_nonneg (by linarith : (0:ℚ) ≤ 100 - R) hP0]
  · norm_num

/-- The property C6 asserts of `calculateMetrics`: the four formulas over
the confusion counts (with their zero-denominator conventions) and the
`[0, 100]` bounds. -/
def MetricsSpec (preds acts : List ℚ) : Prop :=
  (calculateMetrics preds acts).accuracy =
    (((tpCount preds acts : ℚ) + tnCount preds acts) / preds.length) * 100 ∧
  (calculateMetrics preds acts).precision =
    (if 0 < tpCount preds acts + fpCount preds acts then
      ((tpCount preds acts : ℚ) / ((tpCount preds acts : ℚ) + fpCount preds acts)) * 100
    else 0) ∧
  (calculateMetrics preds acts).recall_score =
    (if 0 < tpCount preds acts + fnCount preds acts then
      ((tpCount preds acts : ℚ) / ((tpCount preds acts : ℚ) + fnCount preds acts)) * 100
    else 0) ∧
  (calculateMetrics preds acts).f1_score =
    (if 0 < (calculateMetrics preds acts).precision + (calculateMetrics preds acts).recall_score
    then 2 * (calculateMetrics preds acts).precision * (calculateMetrics preds acts).recall_score /
      ((calculateMetrics preds acts).precision + (calculateMetrics preds acts).recall_score)
    else 0) ∧
  0 ≤ (calculateMetrics preds acts).accuracy ∧ (calculateMetrics preds acts).accuracy ≤ 100 ∧
  0 ≤ (calculateMetrics preds acts).precision ∧ (calculateMetrics preds acts).precision ≤ 100 ∧
  0 ≤ (calculateMetrics preds acts).recall_score ∧
  (calculateMetrics preds acts).recall_score ≤ 100 ∧
  0 ≤ (calculateMetrics preds acts).f1_score ∧ (calculateMetrics preds acts).f1_score ≤ 100

/-- C6: for equal-length inputs with at least one prediction,
`calculateMetrics` computes accuracy, precision, recall and f1 by the
stated formulas with the stated zero conventions, and all four values lie
in `[0, 100]`. -/
theorem claim_C6_metrics (preds acts : List ℚ) (hlen : acts.length = preds.length)
    (hpos : 0 < preds.length) : MetricsSpec preds acts := by
  have hn : (0 : ℚ) < (preds.length : ℚ) := by exact_mod_cast hpos
  have hacc : 0 ≤ (((tpCount preds acts : ℚ) + tnCount preds acts) / preds.length) * 100 ∧
      (((tpCount preds acts : ℚ) + tnCount preds acts) / preds.length) * 100 ≤ 100 := by
    have hle : ((tpCount preds acts : ℚ) + tnCount preds acts) ≤ (preds.length : ℚ) := by
      exact_mod_cast tp_add_tn_le preds acts hlen
    exact percent_bounds (by positivity) hle
  have hprec : 0 ≤ (if 0 < tpCount preds acts + fpCount preds acts then
        ((tpCount preds acts : ℚ) / ((tpCount preds acts : ℚ) + fpCount preds acts)) * 100
      else 0) ∧
      (if 0 < tpCount preds acts + fpCount preds acts then
        ((tpCount preds acts : ℚ) / ((tpCount preds acts : ℚ) + fpCount preds acts)) * 100
      else 0) ≤ 100 := by
    split_ifs with h
    · exact percent_bounds (by positivity) (le_add_of_nonneg_right (Nat.cast_nonneg _))
    · norm_num
  have hrec : 0 ≤ (if 0 < tpCount preds acts + fnCount preds acts then
        ((tpCount preds acts : ℚ) / ((tpCount preds acts : ℚ) + fnCount preds acts)) * 100
      else 0) ∧
      (if 0 < tpCount preds acts + fnCount preds acts then
        ((tpCount preds acts : ℚ) / ((tpCount preds acts : ℚ) + fnCount preds acts)) * 100
      else 0) ≤ 100 := by
    split_ifs with h
    · exact percent_bounds (by positivity) (le_add_of_nonneg_right (Nat.cast_nonneg _))
    · norm_num
  unfold MetricsSpec
  simp only [calculateMetrics, confusionCounts_eq]
  refine ⟨trivial, trivial, trivial, trivial,
    hacc.1, hacc.2, hprec.1, hprec.2, hrec.1, hrec.2, ?_, ?_⟩
  · exact (f1_bounds hprec.1 hprec.2 hrec.1 hrec.2).1
  · exact (f1_bounds hprec.1 hprec.2 hrec.1 hrec.2).2

/-- Witness for C6: two predictions against two labels. -/
theorem claim_C6_witness :
    ([(1 : ℚ), 0]).length = ([(0.9 : ℚ), 0.2]).length ∧
    0 < ([(0.9 : ℚ), 0.2]).length ∧
    MetricsSpec [(0.9 : ℚ), 0.2] [(1 : ℚ), 0] :=
  ⟨rfl, by norm_num, claim_C6_metrics [(0.9 : ℚ), 0.2] [(1 : ℚ), 0] rfl (by norm_num)⟩

/-- Table lookup falls back to 0.5 exactly when no table key matches. -/
theorem encodeLookup_fallback (table : List (String × ℚ)) (key : String)
    (h : ∀ p ∈ table, p.1 ≠ key) : encodeLookup table key = 0.5 := by
  unfold encodeLookup
  have hnone : table.find? (fun p => p.1 == key) = none := by
    rw [List.find?_eq_none]
    intro p hp
    simp only [beq_iff_eq]
    exact h p hp
  rw [hnone]
  rfl

/-- The property C7 asserts of `engineerFeatures`: the fixed 12-entry
feature vector, the exact derived-feature formulas, the two encoder tables,
and the 0.5 fallback for unrecognized categorical keys. -/
def FeatureSpec (d : ApplicantProfile) : Prop :=
  featureNames.length = 12 ∧
  engineerFeatures d FeatureName.income = d.income ∧
  engineerFeatures d FeatureName.credit_history = d.credit_history ∧
  engineerFeatures d FeatureName.loan_amount = d.loan_amount ∧
  engineerFeatures d FeatureName.loan_term = d.loan_term ∧
  engineerFeatures d FeatureName.dependents = d.dependents ∧
  engineerFeatures d FeatureName.employment_encoded =
    encodeLookup employmentTypeScores d.employment_type ∧
  engineerFeatures d FeatureName.marital_encoded =
    encodeLookup maritalStatusScores d.marital_status ∧
  engineerFeatures d FeatureName.loan_to_income_ratio = d.loan_amount / (d.income + 1) ∧
  engineerFeatures d FeatureName.monthly_burden = (d.loan_amount * 0.01) / d.loan_term ∧
  engineerFeatures d FeatureName.income_per_dependent = d.income / (d.dependents + 1) ∧
  engineerFeatures d FeatureName.credit_x_income = d.credit_history * d.income ∧
  engineerFeatures d FeatureName.risk_score =
    (d.loan_amount / (d.income + 1)) * (1 - d.credit_history) * (d.dependents + 1) ∧
  encodeLookup employmentTypeScores "salaried" = 0.8 ∧
  encodeLookup employmentTypeScores "self_employed" = 0.5 ∧
  encodeLookup employmentTypeScores "business" = 0.6 ∧
  encodeLookup maritalStatusScores "married" = 0.7 ∧
  encodeLookup maritalStatusScores "single" = 0.5 ∧
  encodeLookup maritalStatusScores "divorced" = 0.4 ∧
  encodeLookup maritalStatusScores "widowed" = 0.45 ∧
  (d.employment_type ≠ "salaried" → d.employment_type ≠ "self_employed" →
    d.employment_type ≠ "business" →
    engineerFeatures d FeatureName.employment_encoded = 0.5) ∧
  (d.marital_status ≠ "married" → d.marital_status ≠ "single" →
    d.marital_status ≠ "divorced" → d.marital_status ≠ "widowed" →
    engineerFeatures d FeatureName.marital_encoded = 0.5)

/-- C7: for every applicant profile, `engineerFeatures` produces the fixed
12-entry feature vector with exactly the documented formulas and categorical
encodings, and any unrecognized categorical key maps to 0.5 without
failing. -/
theorem claim_C7_feature_engineering (d : ApplicantProfile) : FeatureSpec d := by
  unfold FeatureSpec
  refine ⟨rfl, rfl, rfl, rfl, rfl, rfl, rfl, rfl, rfl, rfl, rfl, rfl, rfl,
    ?_, ?_, ?_, ?_, ?_, ?_, ?_, ?_, ?_⟩
  · simp only [encodeLookup, employmentTypeScores, List.find?, String.reduceBEq]
    norm_num [jsOr, jsOrVal]
  · simp only [encodeLookup, employmentTypeScores, List.find?, String.reduceBEq]
    norm_num [jsOr, jsOrVal]
  · simp only [encodeLookup, employmentTypeScores, List.find?, String.reduceBEq]
    norm_num [jsOr, jsOrVal]
  · simp only [encodeLookup, maritalStatusScores, List.find?, String.reduceBEq]
    norm_num [jsOr, jsOrVal]
  · simp only [encodeLookup, maritalStatusScores, List.find?, String.reduceBEq]
    norm_num [jsOr, jsOrVal]
  · simp only [encodeLookup, maritalStatusScores, List.find?, String.reduceBEq]
    norm_num [jsOr, jsOrVal]
  · simp only [encodeLookup, maritalStatusScores, List.find?, String.reduceBEq]
    norm_num [jsOr, jsOrVal]
  · intro h1 h2 h3
    show encodeLookup employmentTypeScores d.employment_type = 0.5
    refine encodeLookup_fallback _ _ ?_
    intro p hp
    simp only [employmentTypeScores, List.mem_cons, List.not_mem_nil, or_false] at hp
    rcases hp with rfl | rfl | rfl
    · exact Ne.symm h1
    · exact Ne.symm h2
    · exact Ne.symm h3
  · intro h1 h2 h3 h4
    show encodeLookup maritalStatusScores d.marital_status = 0.5
    refine encodeLookup_fallback _ _ ?_
    intro p hp
    simp only [maritalStatusScores, List.mem_cons, List.not_mem_nil, or_false] at hp
    rcases hp with rfl | rfl | rfl | rfl
    · exact Ne.symm h1
    · exact Ne.symm h2
    · exact Ne.symm h3
    · exact Ne.symm h4

/-- Witness for C7: a concrete profile whose categorical values appear in
neither encoder table. -/
theorem claim_C7_witness : FeatureSpec scenarioUnknownCats :=
  claim_C7_feature_engineering scenarioUnknownCats

/-- `jsOrVal` with default 1 never returns 0. -/
theorem jsOrVal_one_ne_zero (v : ℚ) : jsOrVal v 1 ≠ 0 := by
  unfold jsOrVal
  split_ifs with h
  · norm_num
  · exact h

/-- C8: `trainEnsemble` installs, for every feature name, the population
mean and the standard deviation `Math.sqrt(variance) || 1` fitted over all
provided training feature vectors; a zero standard deviation is replaced by
1, the stored divisor is never 0, and the `std.get(name) || 1` divisor used
by normalization is never 0 either. -/
theorem claim_C8_scaler_fit (exp sqrt : ℚ → ℚ) (init : FeatureName → ℚ)
    (trainingData : List TrainingData) (name : FeatureName) :
    (trainEnsemble exp sqrt init trainingData).mean name =
      some (fitMean (trainingData.map (fun d => engineerFeatures d.toApplicantProfile)) name) ∧
    (trainEnsemble exp sqrt init trainingData).std name =
      some (fitStd sqrt (trainingData.map (fun d => engineerFeatures d.toApplicantProfile)) name) ∧
    fitMean (trainingData.map (fun d => engineerFeatures d.toApplicantProfile)) name =
      ((trainingData.map (fun d => engineerFeatures d.toApplicantProfile)).map
        (fun f => f name)).sum /
        (trainingData.map (fun d => engineerFeatures d.toApplicantProfile)).length ∧
    (sqrt (fitVariance (trainingData.map (fun d => engineerFeatures d.toApplicantProfile)) name)
        = 0 →
      fitStd sqrt (trainingData.map (fun d => engineerFeatures d.toApplicantProfile)) name = 1) ∧
    fitStd sqrt (trainingData.map (fun d => engineerFeatures d.toApplicantProfile)) name ≠ 0 ∧
    jsOr ((trainEnsemble exp sqrt init trainingData).std name) 1 ≠ 0 := by
  refine ⟨?_, ?_, rfl, ?_, jsOrVal_one_ne_zero _, jsOr_ne_zero_of_default_one _⟩
  · simp only [trainEnsemble]
  · simp only [trainEnsemble]
  · intro h
    unfold fitStd
    rw [h]
    rfl

/-- Witness for C9: the concrete scenario-B profile. -/
theorem claim_C9_witness :
    (fun _ : ℚ => (1 : ℚ)) 0 = 1 ∧
    (logitOf untrainedModel scenarioB = 0 ∧
     (predict (fun _ => 1) untrainedModel scenarioB).probability_approved = 1 / 2 ∧
     (predict (fun _ => 1) untrainedModel scenarioB).eligibility_status =
       EligibilityStatus.Approved) :=
  ⟨rfl, claim_C9_untrained_defaults (fun _ => 1) scenarioB rfl⟩

end LoanEligibility
